import Mathlib

/-!
Verification of the behavioral claims about the three scripts of the
repository (1password_export_users.py, 1password_export_users_prompt.py,
1password_license_monitor.py), by a shallow embedding of their pure logic
and of their effectful steps as explicit functions over small world states.
-/

/-- A user record, as produced by parsing one JSON object of the array
printed by the external command: an association list from field names to
string values (the scripts only ever read string-valued fields). -/
abbrev UserRecord := List (String × String)

/-- Embedding of the Python dictionary lookup user.get(k): the value at
key k, or none when the key is absent. -/
def UserRecord.get (u : UserRecord) (k : String) : Option String :=
  (u.find? (fun p => p.1 == k)).map Prod.snd

/-- Embedding of user.get(k, d): the value at key k, or the default d. -/
def UserRecord.getD (u : UserRecord) (k d : String) : String :=
  (UserRecord.get u k).getD d

/-! ## License classifier (1password_license_monitor.py, count_active_licenses) -/

/-- The fixed allow-list of countable states, from the source:
active_states = set with ACTIVE and RECOVERY_STARTED. -/
def active_states : List String := ["ACTIVE", "RECOVERY_STARTED"]

/-- The generator condition of count_active_licenses: the state field of
the record, looked up with user.get, is a member of active_states.
A record with no state field yields none, which is not a member. -/
def stateCountable (u : UserRecord) : Bool :=
  match UserRecord.get u "state" with
  | some s => active_states.contains s
  | none => false

/-- Embedding of count_active_licenses: sum of 1 over the users whose
state is in active_states. -/
def count_active_licenses (users : List UserRecord) : Nat :=
  users.countP stateCountable

/-! ## Notifier (1password_license_monitor.py, send_slack_notification) -/

/-- The two message variants send_slack_notification can build, carrying
exactly the numbers interpolated into the corresponding message text:
overage carries used, total and used - total; withinLimit carries used,
total and total - used (the available licenses). -/
inductive SlackMessage where
  | overage (used total diff : Int)
  | withinLimit (used total available : Int)
deriving DecidableEq

/-- Embedding of the branch of send_slack_notification that selects and
builds the message: the overage variant when used_licenses is greater than
total_licenses, the within-limit variant otherwise. -/
def send_slack_message (used total : Int) : SlackMessage :=
  if used > total then
    SlackMessage.overage used total (used - total)
  else
    SlackMessage.withinLimit used total (total - used)

/-! ## Theorems for the classifier and the notifier -/

/-- C1: for every list of user records, count_active_licenses returns the
number of records whose state field is exactly ACTIVE or exactly
RECOVERY_STARTED (case-sensitive membership in that two-element set), and
returns 0 for the empty list; it is a total function on lists. -/
theorem count_active_licenses_spec (users : List UserRecord) :
    count_active_licenses users =
      (users.filter (fun u =>
        UserRecord.get u "state" == some "ACTIVE" ||
        UserRecord.get u "state" == some "RECOVERY_STARTED")).length ∧
    count_active_licenses ([] : List UserRecord) = 0 := by
  refine ⟨?_, rfl⟩
  rw [count_active_licenses, List.countP_eq_length_filter]
  congr 1
  apply List.filter_congr
  intro u _
  unfold stateCountable
  cases h : UserRecord.get u "state" with
  | none => simp [h]
  | some s =>
    simp only [h, active_states, List.contains_cons, List.contains_nil]
    by_cases h1 : s = "ACTIVE" <;> by_cases h2 : s = "RECOVERY_STARTED" <;>
      simp [h1, h2]

/-- C9: the count is at most the length of the input list (and, being a
natural number, non-negative), and a record that lacks a state field is
never counted: removing such a record from anywhere in the list leaves the
count unchanged. -/
theorem count_active_licenses_inv (users : List UserRecord) :
    count_active_licenses users ≤ users.length ∧
    ∀ u us₁ us₂, users = us₁ ++ u :: us₂ → UserRecord.get u "state" = none →
      count_active_licenses users = count_active_licenses (us₁ ++ us₂) := by
  constructor
  · exact List.countP_le_length stateCountable
  · intro u us₁ us₂ hsplit hstate
    subst hsplit
    unfold count_active_licenses
    rw [List.countP_append, List.countP_append, List.countP_cons]
    have : stateCountable u = false := by unfold stateCountable; rw [hstate]
    simp [this]

/-- Witness for C9 at a concrete record with no state field. -/
theorem count_active_licenses_inv_witness :
    count_active_licenses [[("email", "e@x.com")]] ≤ 1 ∧
    count_active_licenses [[("email", "e@x.com")]] =
      count_active_licenses ([] : List UserRecord) := by
  have h := count_active_licenses_inv [[("email", "e@x.com")]]
  exact ⟨h.1, h.2 [("email", "e@x.com")] [] [] rfl rfl⟩

/-- C2: for every pair of integers, the notifier selects the overage
variant exactly when used is greater than total, reporting the positive
difference used - total; otherwise (including equality) it selects the
within-limit variant reporting the headroom total - used. -/
theorem send_slack_message_variants (used total : Int) :
    (used > total →
      send_slack_message used total = SlackMessage.overage used total (used - total) ∧
      used - total > 0) ∧
    (used ≤ total →
      send_slack_message used total =
        SlackMessage.withinLimit used total (total - used)) := by
  constructor
  · intro h
    refine ⟨?_, by omega⟩
    unfold send_slack_message
    rw [if_pos h]
  · intro h
    unfold send_slack_message
    rw [if_neg (by omega)]

/-- Witness for C2: used = 5, total = 3 gives the overage variant with
difference 2; used = 3, total = 3 gives the within-limit variant with
headroom 0. -/
theorem send_slack_message_variants_witness :
    (send_slack_message 5 3 = SlackMessage.overage 5 3 (5 - 3) ∧ (5 : Int) - 3 > 0) ∧
    send_slack_message 3 3 = SlackMessage.withinLimit 3 3 (3 - 3) := by
  exact ⟨(send_slack_message_variants 5 3).1 (by decide),
         (send_slack_message_variants 3 3).2 (by decide)⟩

/-! ## Record fetchers

Both export scripts contain an identical fetch_users (embedded once as
export_fetch_users); the license monitor has its own (monitor_fetch_users).
The outside world a single fetch_users call interacts with is captured by
OpEnv: whether the OP_SERVICE_ACCOUNT_TOKEN environment variable holds a
truthy (non-empty) value, the exit status and standard error of the
external command, and the outcome of parsing its standard output as JSON
(some users on success, none with a decode-error text on failure). -/

/-- The environment one fetch_users call observes. -/
structure OpEnv where
  /-- os.getenv of OP_SERVICE_ACCOUNT_TOKEN is truthy (set and non-empty). -/
  tokenSet : Bool
  /-- The external command exits with status 0. -/
  exitZero : Bool
  /-- Standard error of the external command. -/
  stderr : String
  /-- json.loads of the standard output: some users, or none on failure. -/
  parsed : Option (List UserRecord)
  /-- The decode-error text when parsing fails. -/
  parseError : String

/-- The observable result of one fetch_users call: whether the external
command was invoked at all, the error lines printed, and either the
returned list (ok) or an uncaught exception propagating to the caller
(error). -/
structure FetchResult where
  invokedCommand : Bool
  errorPrints : List String
  outcome : Except String (List UserRecord)

/-- Embedding of fetch_users of the two export scripts (the function is
line-for-line identical in 1password_export_users.py and
1password_export_users_prompt.py): a missing or empty token raises
ValueError before subprocess.run, caught by the generic except clause; a
non-zero exit raises CalledProcessError, caught by its clause; a JSON
decode failure is caught by the generic except clause; every failure path
prints an error and returns the empty list. -/
def export_fetch_users (env : OpEnv) : FetchResult :=
  if !env.tokenSet then
    { invokedCommand := false
      errorPrints := ["Error: OP_SERVICE_ACCOUNT_TOKEN environment variable is not set."]
      outcome := Except.ok [] }
  else if !env.exitZero then
    { invokedCommand := true
      errorPrints := ["Error running \x27op\x27 command: " ++ env.stderr]
      outcome := Except.ok [] }
  else
    match env.parsed with
    | some users =>
        { invokedCommand := true, errorPrints := [], outcome := Except.ok users }
    | none =>
        { invokedCommand := true
          errorPrints := ["Error: " ++ env.parseError]
          outcome := Except.ok [] }

/-- Embedding of fetch_users of 1password_license_monitor.py: no token
check at all, and the try block catches only CalledProcessError, so a
non-zero exit prints and returns the empty list while a JSON decode
failure raises an uncaught exception that propagates to the caller. -/
def monitor_fetch_users (env : OpEnv) : FetchResult :=
  if !env.exitZero then
    { invokedCommand := true
      errorPrints := ["Error running \x27op\x27 command: " ++ env.stderr]
      outcome := Except.ok [] }
  else
    match env.parsed with
    | some users =>
        { invokedCommand := true, errorPrints := [], outcome := Except.ok users }
    | none =>
        { invokedCommand := true, errorPrints := [], outcome := Except.error env.parseError }

/-! ## Theorems for the fetchers (C3, C4) -/

/-- C3 counterexample: in the license monitor, with the command exiting 0
but its standard output failing to parse as JSON, fetch_users does not
return the empty list: the decode exception propagates to the caller. -/
theorem monitor_fetch_parse_failure_raises :
    ¬ (monitor_fetch_users ⟨true, true, "", none, "Expecting value"⟩).outcome
        = Except.ok ([] : List UserRecord) := by
  simp [monitor_fetch_users]

/-- C3 amended: in the two export scripts a non-zero exit or a parse
failure makes fetch_users print an error and return the empty list, and
no exception ever propagates from it; in the license monitor a non-zero
exit prints an error and returns the empty list, but a parse failure
raises an uncaught exception that propagates to the caller. -/
theorem fetch_users_failure_modes (env : OpEnv) :
    ((env.exitZero = false ∨ env.parsed = none) →
      (export_fetch_users env).outcome = Except.ok [] ∧
      (export_fetch_users env).errorPrints ≠ []) ∧
    (∃ users, (export_fetch_users env).outcome = Except.ok users) ∧
    (env.exitZero = false →
      (monitor_fetch_users env).outcome = Except.ok [] ∧
      (monitor_fetch_users env).errorPrints ≠ []) ∧
    (env.exitZero = true → env.parsed = none →
      (monitor_fetch_users env).outcome = Except.error env.parseError) := by
  obtain ⟨tok, ex, se, p, pe⟩ := env
  refine ⟨?_, ?_, ?_, ?_⟩
  · intro h
    cases tok <;> cases ex <;> cases p <;> simp_all [export_fetch_users]
  · cases tok <;> cases ex <;> cases p <;> exact ⟨_, rfl⟩
  · intro h
    cases ex <;> cases p <;> simp_all [monitor_fetch_users]
  · intro h hp
    cases ex <;> cases p <;> simp_all [monitor_fetch_users]

/-- Witness for C3 amended, at a concrete failing environment (non-zero
exit for both fetchers, and a parse failure for the monitor). -/
theorem fetch_users_failure_modes_witness :
    ((export_fetch_users ⟨true, false, "boom", none, "e"⟩).outcome = Except.ok [] ∧
      (export_fetch_users ⟨true, false, "boom", none, "e"⟩).errorPrints ≠ []) ∧
    ((monitor_fetch_users ⟨true, false, "boom", none, "e"⟩).outcome = Except.ok [] ∧
      (monitor_fetch_users ⟨true, false, "boom", none, "e"⟩).errorPrints ≠ []) ∧
    (monitor_fetch_users ⟨true, true, "", none, "e"⟩).outcome = Except.error "e" := by
  refine ⟨(fetch_users_failure_modes ⟨true, false, "boom", none, "e"⟩).1 (Or.inl rfl),
          (fetch_users_failure_modes ⟨true, false, "boom", none, "e"⟩).2.2.1 rfl,
          (fetch_users_failure_modes ⟨true, true, "", none, "e"⟩).2.2.2 rfl rfl⟩

/-- C4 counterexample: in the license monitor, with the token absent,
fetch_users still invokes the external command: there is no short-circuit
check of the credential. -/
theorem monitor_fetch_no_token_check :
    ¬ (monitor_fetch_users ⟨false, false, "no token", none, "e"⟩).invokedCommand
        = false := by
  simp [monitor_fetch_users]

/-- C4 amended: in the two export scripts a missing credential makes
fetch_users fail before invoking the external command, report the missing
credential, and return the empty list so the run continues; the license
monitor performs no such check and invokes the external command even with
the credential absent. -/
theorem fetch_users_token_check (env : OpEnv) (h : env.tokenSet = false) :
    (export_fetch_users env).invokedCommand = false ∧
    (export_fetch_users env).errorPrints =
      ["Error: OP_SERVICE_ACCOUNT_TOKEN environment variable is not set."] ∧
    (export_fetch_users env).outcome = Except.ok [] ∧
    (monitor_fetch_users env).invokedCommand = true := by
  obtain ⟨tok, ex, se, p, pe⟩ := env
  cases tok with
  | true => cases h
  | false =>
      refine ⟨rfl, rfl, rfl, ?_⟩
      cases ex <;> cases p <;> rfl

/-- Witness for C4 amended at a concrete environment without the token. -/
theorem fetch_users_token_check_witness :
    (export_fetch_users ⟨false, true, "", some [], ""⟩).invokedCommand = false ∧
    (export_fetch_users ⟨false, true, "", some [], ""⟩).errorPrints =
      ["Error: OP_SERVICE_ACCOUNT_TOKEN environment variable is not set."] ∧
    (export_fetch_users ⟨false, true, "", some [], ""⟩).outcome = Except.ok [] ∧
    (monitor_fetch_users ⟨false, true, "", some [], ""⟩).invokedCommand = true :=
  fetch_users_token_check ⟨false, true, "", some [], ""⟩ rfl

/-! ## CSV exporter (export_to_csv, identical in both export scripts) -/

/-- The fixed output path constant OUTPUT_CSV. -/
def OUTPUT_CSV : String := "1password_team_users.csv"

/-- The fixed header row the exporter writes. -/
def headers : List String := ["ID", "Email", "Name", "State"]

/-- The data row the exporter writes for one user: the id, email, name
and state fields, each via user.get with default empty string. -/
def csvRow (u : UserRecord) : List String :=
  [UserRecord.getD u "id" "", UserRecord.getD u "email" "",
   UserRecord.getD u "name" "", UserRecord.getD u "state" ""]

/-- The file effect of one export_to_csv call: skipped means the empty
branch was taken and no file was opened; written rows means the output
file was opened in truncating write mode and now holds exactly rows. -/
inductive CsvResult where
  | skipped
  | written (rows : List (List String))
deriving DecidableEq

/-- The rows the call left in the output file, none when it never opened
the file. -/
def CsvResult.rows : CsvResult → Option (List (List String))
  | CsvResult.skipped => none
  | CsvResult.written rs => some rs

/-- Applying the file effect to the prior content of the output path:
skipped leaves it untouched, written replaces it (mode w truncates). -/
def applyCsv (r : CsvResult) (prior : Option (List (List String))) :
    Option (List (List String)) :=
  match r with
  | CsvResult.skipped => prior
  | CsvResult.written rs => some rs

/-- Embedding of export_to_csv: an empty (falsy) list takes the early
return branch without opening the file; otherwise the writer emits the
header row then one csvRow per user, in list order. -/
def export_to_csv (users : List UserRecord) : CsvResult :=
  if users.isEmpty then CsvResult.skipped
  else CsvResult.written (headers :: users.map csvRow)

/-- The lines export_to_csv prints: the nothing-to-export report on the
empty branch, the progress and success lines otherwise. -/
def export_to_csv_report (users : List UserRecord) : List String :=
  if users.isEmpty then ["No users found to export."]
  else ["Exporting " ++ toString users.length ++ " users to " ++ OUTPUT_CSV ++ "...",
        "Successfully exported users to " ++ OUTPUT_CSV ++ "."]

/-- C5: on the empty input list export_to_csv performs no file write (the
skipped effect), leaves any pre-existing content of the output path
unchanged, and reports that there is nothing to export. -/
theorem export_to_csv_empty (prior : Option (List (List String))) :
    export_to_csv [] = CsvResult.skipped ∧
    applyCsv (export_to_csv []) prior = prior ∧
    export_to_csv_report [] = ["No users found to export."] :=
  ⟨rfl, rfl, rfl⟩

/-- C6: on every non-empty list export_to_csv writes exactly one header
row with the four fixed columns ID, Email, Name, State, followed by one
data row per input record in input order, each carrying the id, email,
name and state fields of its record with missing fields rendered as the
empty string. -/
theorem export_to_csv_nonempty (users : List UserRecord) (h : users ≠ []) :
    (export_to_csv users).rows =
      some (["ID", "Email", "Name", "State"] ::
        users.map (fun u =>
          [UserRecord.getD u "id" "", UserRecord.getD u "email" "",
           UserRecord.getD u "name" "", UserRecord.getD u "state" ""])) ∧
    ∀ rs, (export_to_csv users).rows = some rs →
      rs.length = users.length + 1 ∧
      ∀ i (hi : i < users.length),
        rs[i + 1]? = some
          [UserRecord.getD (users.get ⟨i, hi⟩) "id" "",
           UserRecord.getD (users.get ⟨i, hi⟩) "email" "",
           UserRecord.getD (users.get ⟨i, hi⟩) "name" "",
           UserRecord.getD (users.get ⟨i, hi⟩) "state" ""] := by
  have hne : users.isEmpty = false := by
    cases users with
    | nil => exact absurd rfl h
    | cons a as => rfl
  have hrows : (export_to_csv users).rows = some (headers :: users.map csvRow) := by
    unfold export_to_csv
    rw [hne]
    rfl
  constructor
  · rw [hrows]; rfl
  · intro rs hrs
    rw [hrows] at hrs
    injection hrs with hrs
    subst hrs
    constructor
    · simp
    · intro i hi
      rw [List.getElem?_cons_succ, List.getElem?_map,
        List.getElem?_eq_getElem (by simpa using hi)]
      rfl

/-- Witness for C6, at the single-record list from the specification
example: the file holds the header row then the row 1, a@x.com, A,
ACTIVE. -/
theorem export_to_csv_nonempty_witness :
    (export_to_csv
        [[("id", "1"), ("email", "a@x.com"), ("name", "A"), ("state", "ACTIVE")]]).rows =
      some [["ID", "Email", "Name", "State"], ["1", "a@x.com", "A", "ACTIVE"]] := by
  have h := export_to_csv_nonempty
    [[("id", "1"), ("email", "a@x.com"), ("name", "A"), ("state", "ACTIVE")]]
    (by decide)
  simpa using h.1

/-! ## Interactive credential variant (1password_export_users_prompt.py) -/

/-- The outside world one run of the interactive script observes: the line
typed at the prompt, the file system (path to contents), and the
environment of the subsequent fetch step. -/
structure PromptWorld where
  /-- The raw line typed at the input prompt. -/
  inputLine : String
  /-- The file system: contents of the file at a path, none when no file
  exists there (os.path.isfile is false exactly on none). -/
  fs : String → Option String
  /-- The external command exits with status 0. -/
  opExitZero : Bool
  /-- Standard error of the external command. -/
  opStderr : String
  /-- json.loads of the standard output of the external command. -/
  opParsed : Option (List UserRecord)
  /-- The decode-error text when parsing fails. -/
  opParseError : String

/-- Embedding of get_token_from_file: strip the typed path, raise
FileNotFoundError when no file exists there (error), otherwise read the
whole file, strip it, and yield the token to be stored in the process
environment (ok). -/
def get_token_from_file (w : PromptWorld) : Except String String :=
  let token_path := w.inputLine.trim
  match w.fs token_path with
  | none => Except.error ("Token file not found at " ++ token_path)
  | some contents => Except.ok contents.trim

/-- The observable trace of one run of main of the interactive script. -/
structure RunTrace where
  /-- Value of OP_SERVICE_ACCOUNT_TOKEN set by the credential loader,
  none when the loader never reached the assignment. -/
  opServiceAccountToken : Option String
  /-- fetch_users was called. -/
  fetchPerformed : Bool
  /-- export_to_csv was called. -/
  exportPerformed : Bool
  /-- Rows left in the output file by export_to_csv, none when no file
  was written. -/
  fileRows : Option (List (List String))
  /-- The error line printed by the except clause of main, if reached. -/
  errorPrint : Option String

/-- Every export_fetch_users call returns a list: its try block ends in a
generic except clause, so no exception ever escapes it. -/
theorem export_fetch_users_never_raises (env : OpEnv) :
    ∃ users, (export_fetch_users env).outcome = Except.ok users := by
  obtain ⟨tok, ex, se, p, pe⟩ := env
  cases tok <;> cases ex <;> cases p <;> exact ⟨_, rfl⟩

/-- Embedding of main of 1password_export_users_prompt.py: the try block
runs get_token_from_file, then fetch_users, then export_to_csv; any
exception reaching main is printed as an error and ends the run. The
fetch step sees the token stored by the loader (getenv is truthy exactly
when the stored string is non-empty). -/
def prompt_main (w : PromptWorld) : RunTrace :=
  match get_token_from_file w with
  | Except.error e =>
      { opServiceAccountToken := none, fetchPerformed := false,
        exportPerformed := false, fileRows := none,
        errorPrint := some ("An error occurred: " ++ e) }
  | Except.ok token =>
      let env : OpEnv :=
        { tokenSet := token != "", exitZero := w.opExitZero,
          stderr := w.opStderr, parsed := w.opParsed,
          parseError := w.opParseError }
      match (export_fetch_users env).outcome with
      | Except.error e =>
          { opServiceAccountToken := some token, fetchPerformed := true,
            exportPerformed := false, fileRows := none,
            errorPrint := some ("An error occurred: " ++ e) }
      | Except.ok users =>
          { opServiceAccountToken := some token, fetchPerformed := true,
            exportPerformed := true, fileRows := (export_to_csv users).rows,
            errorPrint := none }

/-- C7: in the interactive variant, when the entered path does not resolve
to an existing file, the credential loader raises a file-not-found
condition that aborts the run: neither the fetch step nor the CSV export
runs and no file is written; when the path does resolve, fetch and export
both run even when the fetcher fails, since fetcher failures are
swallowed. -/
theorem prompt_main_abort_vs_swallow (w : PromptWorld) :
    (w.fs w.inputLine.trim = none →
      (prompt_main w).fetchPerformed = false ∧
      (prompt_main w).exportPerformed = false ∧
      (prompt_main w).fileRows = none ∧
      (prompt_main w).errorPrint =
        some ("An error occurred: " ++
          ("Token file not found at " ++ w.inputLine.trim))) ∧
    (∀ contents, w.fs w.inputLine.trim = some contents →
      (prompt_main w).fetchPerformed = true ∧
      (prompt_main w).exportPerformed = true) := by
  constructor
  · intro h
    simp [prompt_main, get_token_from_file, h]
  · intro contents h
    have htok : get_token_from_file w = Except.ok contents.trim := by
      simp [get_token_from_file, h]
    obtain ⟨users, hus⟩ := export_fetch_users_never_raises
      ⟨contents.trim != "", w.opExitZero, w.opStderr, w.opParsed, w.opParseError⟩
    simp [prompt_main, htok, hus]

/-- Witness for C7: a world with no file anywhere aborts; a world where
the typed path holds a token file but the external command fails still
runs the export step. -/
theorem prompt_main_abort_vs_swallow_witness :
    ((prompt_main ⟨"p", fun _ => none, true, "", some [], ""⟩).fetchPerformed = false ∧
      (prompt_main ⟨"p", fun _ => none, true, "", some [], ""⟩).exportPerformed = false ∧
      (prompt_main ⟨"p", fun _ => none, true, "", some [], ""⟩).fileRows = none ∧
      (prompt_main ⟨"p", fun _ => none, true, "", some [], ""⟩).errorPrint =
        some ("An error occurred: " ++
          ("Token file not found at " ++ String.trim "p"))) ∧
    ((prompt_main ⟨"p", fun _ => some "tok",
        false, "boom", none, "e"⟩).fetchPerformed = true ∧
      (prompt_main ⟨"p", fun _ => some "tok",
        false, "boom", none, "e"⟩).exportPerformed = true) :=
  ⟨(prompt_main_abort_vs_swallow ⟨"p", fun _ => none, true, "", some [], ""⟩).1 rfl,
   (prompt_main_abort_vs_swallow ⟨"p", fun _ => some "tok",
      false, "boom", none, "e"⟩).2 "tok" rfl⟩

/-- C8: in the interactive variant, when the entered path resolves to an
existing file, the credential loader reads its whole contents, trims
surrounding whitespace, and stores exactly this trimmed string in the
process environment under OP_SERVICE_ACCOUNT_TOKEN, before the fetch step
runs. -/
theorem get_token_from_file_stores_trimmed (w : PromptWorld) (contents : String)
    (h : w.fs w.inputLine.trim = some contents) :
    get_token_from_file w = Except.ok contents.trim ∧
    (prompt_main w).opServiceAccountToken = some contents.trim ∧
    (prompt_main w).fetchPerformed = true := by
  have htok : get_token_from_file w = Except.ok contents.trim := by
    simp [get_token_from_file, h]
  obtain ⟨users, hus⟩ := export_fetch_users_never_raises
    ⟨contents.trim != "", w.opExitZero, w.opStderr, w.opParsed, w.opParseError⟩
  refine ⟨htok, ?_, ?_⟩ <;> simp [prompt_main, htok, hus]

/-- Witness for C8: a token file whose contents carry surrounding
whitespace is stored trimmed. -/
theorem get_token_from_file_stores_trimmed_witness :
    get_token_from_file
        ⟨"p", fun _ => some " tok ", true, "", some [], ""⟩ =
      Except.ok (String.trim " tok ") ∧
    (prompt_main
        ⟨"p", fun _ => some " tok ", true, "", some [], ""⟩).opServiceAccountToken =
      some (String.trim " tok ") ∧
    (prompt_main
        ⟨"p", fun _ => some " tok ", true, "", some [], ""⟩).fetchPerformed = true :=
  get_token_from_file_stores_trimmed
    ⟨"p", fun _ => some " tok ", true, "", some [], ""⟩
    " tok " rfl

/-! ## License monitor main (1password_license_monitor.py) -/

/-- The TOTAL_LICENSES constant of the monitor. -/
def TOTAL_LICENSES : Int := 3000

/-- The observable trace of one run of main of the license monitor. -/
structure MonitorTrace where
  /-- An uncaught exception text ending the run, if any. -/
  crashed : Option String
  /-- The license count computed, none when main returned before it. -/
  usedLicenses : Option Int
  /-- The message variant POSTed to the webhook, none when no POST was
  attempted. -/
  webhookMessage : Option SlackMessage

/-- Embedding of main of the license monitor: fetch, return early on an
empty (falsy) list, otherwise count and send the notification. -/
def monitor_main (env : OpEnv) : MonitorTrace :=
  match (monitor_fetch_users env).outcome with
  | Except.error e =>
      { crashed := some e, usedLicenses := none, webhookMessage := none }
  | Except.ok users =>
      if users.isEmpty then
        { crashed := none, usedLicenses := none, webhookMessage := none }
      else
        { crashed := none,
          usedLicenses := some (count_active_licenses users : Int),
          webhookMessage :=
            some (send_slack_message (count_active_licenses users : Int) TOTAL_LICENSES) }

/-- C10: whenever fetch_users of the monitor returns the empty list, main
returns before computing a license count and no webhook message of either
variant is produced; conversely a webhook POST is attempted only when the
fetch returned a non-empty list. -/
theorem monitor_main_empty_guard (env : OpEnv) :
    ((monitor_fetch_users env).outcome = Except.ok [] →
      (monitor_main env).usedLicenses = none ∧
      (monitor_main env).webhookMessage = none) ∧
    (∀ m, (monitor_main env).webhookMessage = some m →
      ∃ users, (monitor_fetch_users env).outcome = Except.ok users ∧ users ≠ []) := by
  cases hout : (monitor_fetch_users env).outcome with
  | error e =>
      constructor
      · intro h
        exact Except.noConfusion h
      · intro m hm
        simp [monitor_main, hout] at hm
  | ok users =>
      cases users with
      | nil =>
          constructor
          · intro _
            constructor <;> simp [monitor_main, hout]
          · intro m hm
            simp [monitor_main, hout] at hm
      | cons u us =>
          constructor
          · intro h
            injection h with h
            exact List.noConfusion h
          · intro m hm
            exact ⟨u :: us, rfl, List.cons_ne_nil u us⟩

/-- Witness for C10: with the command succeeding and printing an empty
JSON array, main computes no count and sends nothing. -/
theorem monitor_main_empty_guard_witness :
    (monitor_main ⟨true, true, "", some [], ""⟩).usedLicenses = none ∧
    (monitor_main ⟨true, true, "", some [], ""⟩).webhookMessage = none :=
  (monitor_main_empty_guard ⟨true, true, "", some [], ""⟩).1 rfl
